import Mathlib

/-!
Verification of the `gnvext` environment-variable conversion library
(`gnvext/converters/converters.py`) against its natural-language
specification.  Python strings are embedded as `List Char`; each Python
method of the converter classes is translated into a Lean function of the
same name.  Fallible Python code (code that raises `ValueError`,
`TypeError` or `SyntaxError`) is embedded with `Except PyError`.
-/

namespace Gnvext

/-- A Python string, embedded as its list of characters. -/
abbrev PyStr := List Char

/-- Embed a Lean string literal as a `PyStr`. -/
def ofStr (s : String) : PyStr := s.data

/-- The characters treated as whitespace by Python's `str.strip()` /
`str.split()` with no arguments (space, tab, newline, carriage return,
vertical tab, form feed). -/
def isPySpace (c : Char) : Bool :=
  c = ' ' || c = '\t' || c = '\n' || c = '\r' || c = '\x0b' || c = '\x0c'

/-- Remove the characters satisfying `p` from both ends of a string.
This is the behaviour of Python's `str.strip(chars)`: a pure
leading/trailing character-class trim, not pair matched. -/
def stripWhile (p : Char → Bool) (s : PyStr) : PyStr :=
  ((s.dropWhile p).reverse.dropWhile p).reverse

/-- Python `str.strip()` with no argument: trim whitespace from both ends. -/
def pyStrip (s : PyStr) : PyStr := stripWhile isPySpace s

/-- Python `str.strip(chars)`: trim any of the given characters from both
ends. -/
def pyStripChars (chars : List Char) (s : PyStr) : PyStr :=
  stripWhile (fun c => chars.contains c) s

/-- Helper for `pySplit`: walk the string accumulating the current token
(in reverse) and emit it at each whitespace run. -/
def pySplitAux : PyStr → PyStr → List PyStr
  | [], acc => if acc.isEmpty then [] else [acc.reverse]
  | c :: cs, acc =>
    if isPySpace c then
      if acc.isEmpty then pySplitAux cs [] else acc.reverse :: pySplitAux cs []
    else
      pySplitAux cs (c :: acc)

/-- Python `str.split()` with no arguments: split on runs of whitespace,
discarding empty fragments. -/
def pySplit (s : PyStr) : List PyStr := pySplitAux s []

/-- Does the string end with the single character `c`
(Python `str.endswith` with a one-character argument)? -/
def endsWith1 (s : PyStr) (c : Char) : Bool :=
  match s.reverse with
  | [] => false
  | x :: _ => x = c

/-- Does the string start with the two characters `a`, `b`
(Python `str.startswith` with a two-character argument)? -/
def startsWith2 (s : PyStr) (a b : Char) : Bool :=
  match s with
  | x :: y :: _ => x = a && y = b
  | _ => false

/-- Does the string end with the two characters `a`, `b`
(Python `str.endswith` with a two-character argument)? -/
def endsWith2 (s : PyStr) (a b : Char) : Bool :=
  match s.reverse with
  | y :: x :: _ => x = a && y = b
  | _ => false

/-- The payload of a Python `ValueError` raised by the converter module;
each constructor records which `raise` site produced the error together
with the datum interpolated into its message:
* `toDict coll`    — `ValueError(f-string "Could not convert ... to dict")`
  raised in `CollectionEnvVariable._try_to_dict`, naming the parsed tuple;
* `toExpected raw` — `ValueError("Could not convert ... to expected type")`
  raised in `CollectionEnvVariable._to_expected_type`, naming the raw value;
* `toBool raw`     — `ValueError("could not convert ... to bool")`
  raised in `BooleanEnvVariable.convert`, naming the raw value;
* `toDatetime raw` — `ValueError("Could not convert ... to datetime")`
  raised in `DateTimeEnvVariable.convert`, naming the raw value. -/
inductive ErrMsg where
  | toDict (coll : List PyStr)
  | toExpected (raw : PyStr)
  | toBool (raw : PyStr)
  | toDatetime (raw : PyStr)
deriving DecidableEq, Repr

/-- A Python exception escaping from a converter: either a `ValueError`
(the library's single conversion-failure kind, carrying its message
payload) or a `SyntaxError` raised by `ast.literal_eval` on malformed
input (which the collection converter does not catch). -/
inductive PyError where
  | valueErr (msg : ErrMsg)
  | synErr
deriving DecidableEq, Repr

/-- Is this error the library's uniform conversion-failure kind
(a Python `ValueError`)?  `SyntaxError` is a different exception class. -/
def PyError.isConvFailure : PyError → Bool
  | .valueErr _ => true
  | .synErr => false

instance {ε α : Type} [DecidableEq ε] [DecidableEq α] : DecidableEq (Except ε α) := fun
  | .ok a, .ok b =>
    if h : a = b then .isTrue (by rw [h]) else .isFalse (by simp [h])
  | .ok _, .error _ => .isFalse (by simp)
  | .error _, .ok _ => .isFalse (by simp)
  | .error a, .error b =>
    if h : a = b then .isTrue (by rw [h]) else .isFalse (by simp [h])

namespace BooleanVar

/-- `BooleanEnvVariable.truthy_values` — the default truthy token set. -/
def truthyValues : List PyStr :=
  [ofStr "TRUE", ofStr "True", ofStr "true", ofStr "T", ofStr "t", ofStr "1"]

/-- `BooleanEnvVariable.falsy_values` — the default falsy token set. -/
def falsyValues : List PyStr :=
  [ofStr "FALSE", ofStr "False", ofStr "false", ofStr "F", ofStr "f", ofStr "0"]

/-- `BooleanEnvVariable.convert`: strip the raw value, test membership in
the configured truthy set, then in the falsy set, otherwise raise
`ValueError` naming the (unstripped) raw value.  The token sets are taken
as parameters because the class attributes are per-instance configurable. -/
def convert (truthy falsy : List PyStr) (value : PyStr) : Except PyError Bool :=
  let cleaned := pyStrip value
  if cleaned ∈ truthy then .ok true
  else if cleaned ∈ falsy then .ok false
  else .error (.valueErr (.toBool value))

end BooleanVar

/-- A Python collection value as produced by `CollectionEnvVariable`:
a list, tuple or set of strings, or a string-to-string mapping.  A set is
represented by its distinct elements in first-insertion order (Python sets
are unordered; the representation is canonical because construction is
deterministic).  A dict is represented as an insertion-ordered association
list with distinct keys. -/
inductive PyColl where
  | list (xs : List PyStr)
  | tuple (xs : List PyStr)
  | set (xs : List PyStr)
  | dict (pairs : List (PyStr × PyStr))
deriving DecidableEq, Repr

/-- A target container kind, the value of the per-instance configuration
attribute `convert_collection_type` when it is set. -/
inductive PyKind where
  | list | tuple | set | dict
deriving DecidableEq, Repr

/-- Translate one escape sequence `\c` occurring inside a Python string
literal: `\x27`, `\x22`, `\\`, `\n`, `\t`, `\r` have their usual meaning,
and an unrecognized escape keeps the backslash (CPython's behaviour, up to
a deprecation warning).  The numeric escape forms (octal, `\xhh`,
`\u`/`\N`), which no claim exercises, are treated as unrecognized. -/
def escChar (c : Char) : List Char :=
  if c = '\x27' then ['\x27']
  else if c = '\x22' then ['\x22']
  else if c = '\\' then ['\\']
  else if c = 'n' then ['\n']
  else if c = 't' then ['\t']
  else if c = 'r' then ['\r']
  else ['\\', c]

/-- Scan the body of a Python string literal opened with the quote
character `q`, processing escape sequences, and return the string's value
together with the remaining input after the closing quote; `none` when the
literal is unterminated (end of input, or a raw newline before the closing
quote), which makes `ast.literal_eval` raise `SyntaxError`. -/
def pyStrLit (q : Char) : List Char → Option (PyStr × List Char)
  | [] => none
  | c :: cs =>
    if c = q then some ([], cs)
    else if c = '\n' then none
    else if c = '\\' then
      match cs with
      | [] => none
      | e :: cs' => (pyStrLit q cs').map (fun r => (escChar e ++ r.1, r.2))
    else (pyStrLit q cs).map (fun r => (c :: r.1, r.2))

/-- Drop leading whitespace inside an evaluated expression. -/
def skipSp (s : List Char) : List Char := s.dropWhile isPySpace

/-- Parse the items of a parenthesized tuple of string literals after the
opening `(`: string literals separated by commas, an optional trailing
comma, a closing `)`, and nothing but whitespace afterwards.  Any other
shape is a `SyntaxError`.  The fuel argument only bounds the recursion and
is chosen large enough by `litEval` never to run out. -/
def litItems : Nat → List Char → Except PyError (List PyStr)
  | 0, _ => .error .synErr
  | fuel + 1, s =>
    match skipSp s with
    | ')' :: rest => if (skipSp rest).isEmpty then .ok [] else .error .synErr
    | c :: rest =>
      if c = '\x22' || c = '\x27' then
        match pyStrLit c rest with
        | none => .error .synErr
        | some (content, rest') =>
          match skipSp rest' with
          | ',' :: rest'' => (litItems fuel rest'').map (fun xs => content :: xs)
          | ')' :: rest'' =>
            if (skipSp rest'').isEmpty then .ok [content] else .error .synErr
          | _ => .error .synErr
      else .error .synErr
    | [] => .error .synErr

/-- `ast.literal_eval`, specialised to the bounded grammar the library
feeds it: a parenthesized, comma-separated sequence of quoted string
literals (the shape produced by `CollectionEnvVariable._parse`, which
always appends a trailing comma before the closing parenthesis).  Returns
the tuple of string values, or `synErr` where CPython raises
`SyntaxError` — unterminated or malformed literals, a leading comma as in
`"(,)"`, stray characters.  (On the assembled strings reachable from
`_parse`, text this grammar rejects is text CPython's evaluator also
rejects: every element starts with a double quote, so no bare name or
operator can appear outside a string literal without first producing an
unterminated-literal or unexpected-token error.) -/
def litEval (s : PyStr) : Except PyError (List PyStr) :=
  match skipSp s with
  | '(' :: rest => litItems (s.length + 1) rest
  | _ => .error .synErr

namespace Collection

/-- `CollectionEnvVariable._BRACKETS = "\x7b\x7d()[]"`. -/
def defaultBrackets : List Char := ['\x7b', '\x7d', '(', ')', '[', ']']

/-- `CollectionEnvVariable._clean_split`: strip whitespace, then strip any
bracket characters from both ends, then split on whitespace. -/
def cleanSplit (value : PyStr) (brackets : List Char := defaultBrackets) :
    List PyStr :=
  pySplit (pyStripChars brackets (pyStrip value))

/-- The two sequential `str.replace` calls in `_wrap_with_quotes`:
`value.replace("\x27", "\\\x27").replace("\x22", "\\\x22")`.  Replacing
single quotes first introduces no double quotes and vice versa, so the
composition is the single character-wise map below. -/
def escQuotes (s : PyStr) : PyStr :=
  s.flatMap (fun c =>
    if c = '\x27' then ['\\', '\x27']
    else if c = '\x22' then ['\\', '\x22']
    else [c])

/-- `CollectionEnvVariable._wrap_with_quotes`: strip the token, escape its
quotes, drop one trailing comma, strip the leading/trailing escaped-quote
markers when the token starts and ends with the same such marker and its
length is not 2, then wrap in double quotes.  Python's `value[2:-2]` is
`(drop 2).take (length - 4)`. -/
def wrapWithQuotes (value : PyStr) : PyStr :=
  let v1 := escQuotes (pyStrip value)
  let v2 := if endsWith1 v1 ',' then v1.dropLast else v1
  let v3 :=
    if ((startsWith2 v2 '\\' '\x22' && endsWith2 v2 '\\' '\x22')
        || (startsWith2 v2 '\\' '\x27' && endsWith2 v2 '\\' '\x27'))
       && v2.length != 2
    then (v2.drop 2).take (v2.length - 4)
    else v2
  '\x22' :: (v3 ++ ['\x22'])

/-- `CollectionEnvVariable._parse`: normalize every token and assemble the
tuple-like literal `"(" + ", ".join(values) + ",)"`. -/
def parse (value : PyStr) : PyStr :=
  let values := (cleanSplit value).map wrapWithQuotes
  '(' :: (List.intercalate (ofStr ", ") values ++ [',', ')'])

/-- Python `dict` insertion `as_dict[k] = v`: overwrite the value in place
when the key exists, otherwise append the pair. -/
def dictInsert (m : List (PyStr × PyStr)) (k v : PyStr) :
    List (PyStr × PyStr) :=
  if m.any (fun p => p.1 = k) then
    m.map (fun p => if p.1 = k then (k, v) else p)
  else m ++ [(k, v)]

/-- Key cleaning in `_try_to_dict`: `k[:-1].strip("\x22").strip("\x27")` —
drop the trailing colon, then trim all leading/trailing double quotes,
then all leading/trailing single quotes. -/
def cleanKey (k : PyStr) : PyStr :=
  pyStripChars ['\x27'] (pyStripChars ['\x22'] k.dropLast)

/-- The pairwise loop of `_try_to_dict`: consume the parsed tuple two
elements at a time; the key must end with a colon and the value must not,
else `ValueError` naming the whole tuple.  The one-element leftover case
cannot be reached from `tryToDict` (even length is checked first) and is
given the same error. -/
def tryToDictAux (coll : List PyStr) :
    List PyStr → List (PyStr × PyStr) → Except PyError (List (PyStr × PyStr))
  | [], acc => .ok acc
  | k :: v :: rest, acc =>
    if !endsWith1 k ':' || endsWith1 v ':' then
      .error (.valueErr (.toDict coll))
    else tryToDictAux coll rest (dictInsert acc (cleanKey k) v)
  | [_], _ => .error (.valueErr (.toDict coll))

/-- `CollectionEnvVariable._try_to_dict`: require even length, then pair
up the tuple into a mapping with cleaned keys. -/
def tryToDict (coll : List PyStr) : Except PyError (List (PyStr × PyStr)) :=
  if coll.length % 2 ≠ 0 then .error (.valueErr (.toDict coll))
  else tryToDictAux coll coll []

/-- Outcome of evaluating the two-character probe string in
`_to_determined_type`. -/
inductive ProbeT where
  | listT | tupleT | dictT | otherLit
deriving DecidableEq, Repr

/-- Models `type(ast.literal_eval(as_str[0] + as_str[-1]))` applied to the
first-plus-last-character probe string, as classified by the code that
follows it: `listT`/`tupleT`/`dictT` for the bracket pairs `[]`, `()`,
`\x7b\x7d` (the only two-character literals of collection type); `otherLit`
for two-character literals of non-collection type (two digits → `int`, a
pair of identical quotes → the empty `str`); `.error` when the evaluation
raises (including the `IndexError` on an empty string, which the code
catches alongside `ValueError` and `SyntaxError`).  A few exotic
two-character literals (e.g. `"1."`, `"-1"`) are classified `.error`
rather than `otherLit`; the distinction is invisible because
`_to_determined_type` maps the `otherLit` and error branches to the same
default type. -/
def probeTwoChar (s : PyStr) : Except Unit ProbeT :=
  match s.head?, s.getLast? with
  | some a, some b =>
    if a = '[' && b = ']' then .ok .listT
    else if a = '(' && b = ')' then .ok .tupleT
    else if a = '\x7b' && b = '\x7d' then .ok .dictT
    else if (a.isDigit && b.isDigit) || (a = '\x22' && b = '\x22')
            || (a = '\x27' && b = '\x27') then .ok .otherLit
    else .error ()
  | _, _ => .error ()

/-- Python `set(collection)`: the distinct elements, keeping first
occurrences. -/
def setAux : List PyStr → List PyStr → List PyStr
  | [], seen => seen.reverse
  | x :: xs, seen =>
    if x ∈ seen then setAux xs seen else setAux xs (x :: seen)

/-- Python `set(collection)` from a tuple of strings. -/
def setOfList (xs : List PyStr) : List PyStr := setAux xs []

/-- The final call `determined_type(collection)` for a non-mapping kind;
constructing a list, tuple or set from a tuple of strings cannot raise.
The `dict` arm is dead code in every caller: `_to_determined_type`
downgrades `dict` to `set` before this call, and `_to_expected_type`
routes `dict` through `_try_to_dict` instead. -/
def constructKind : PyKind → List PyStr → PyColl
  | .list, xs => .list xs
  | .tuple, xs => .tuple xs
  | .set, xs => .set (setOfList xs)
  | .dict, _ => .dict []

/-- `CollectionEnvVariable._to_determined_type`: return the mapping when
`_try_to_dict` succeeds (its `ValueError` is suppressed otherwise); else
probe the first and last characters of the stripped raw value for a
bracket family, defaulting to `list` when the probe fails or yields a
non-collection type, downgrade `dict` to `set`, and construct. -/
def toDeterminedType (value : PyStr) (coll : List PyStr) : PyColl :=
  match tryToDict coll with
  | .ok m => .dict m
  | .error _ =>
    let asStr := pyStrip value
    let dt : PyKind :=
      match probeTwoChar asStr with
      | .ok .listT => .list
      | .ok .tupleT => .tuple
      | .ok .dictT => .dict
      | .ok .otherLit => .list
      | .error _ => .list
    let dt := if dt = PyKind.dict then PyKind.set else dt
    constructKind dt coll

/-- `CollectionEnvVariable._to_expected_type`: with an explicit `dict`
target run `_try_to_dict`, converting its failure into
`ValueError("... to expected type")` naming the raw value; with any other
explicit kind call that kind's constructor directly (which cannot raise on
a tuple of strings, so the surrounding `except (ValueError, TypeError)` is
dead there). -/
def toExpectedType (value : PyStr) (k : PyKind) (coll : List PyStr) :
    Except PyError PyColl :=
  match k with
  | .dict =>
    match tryToDict coll with
    | .ok m => .ok (.dict m)
    | .error _ => .error (.valueErr (.toExpected value))
  | k' => .ok (constructKind k' coll)

/-- `CollectionEnvVariable.convert`: tokenize and assemble the tuple-like
string, evaluate it (errors from `ast.literal_eval` are NOT caught), then
dispatch on whether `convert_collection_type` is configured (`none` embeds
the `Ellipsis` default). -/
def convert (convertCollectionType : Option PyKind) (value : PyStr) :
    Except PyError PyColl :=
  match litEval (parse value) with
  | .error e => .error e
  | .ok coll =>
    match convertCollectionType with
    | some k => toExpectedType value k coll
    | none => .ok (toDeterminedType value coll)

end Collection

namespace DateTimeVar

/-- A Python `datetime.date`. -/
structure Date where
  year : Nat
  month : Nat
  day : Nat
deriving DecidableEq, Repr

/-- A Python `datetime.time`. -/
structure Time where
  hour : Nat
  minute : Nat
  second : Nat
  usec : Nat
deriving DecidableEq, Repr

/-- The fields accumulated while matching a `strptime` format, initialized
to CPython's defaults: year 1900, month 1, day 1, midnight. -/
structure DTRaw where
  y : Nat := 1900
  mo : Nat := 1
  d : Nat := 1
  h : Nat := 0
  mi : Nat := 0
  s : Nat := 0
  us : Nat := 0
deriving DecidableEq, Repr

/-- Numeric value of a decimal digit character. -/
def digitVal (c : Char) : Nat := c.toNat - 48

/-- Match a numeric `strptime` directive that accepts one or two digits
(CPython compiles e.g. `%H` to the regex `2[0-3]|[0-1]\d|\d`): take two
digits when both are digits and the two-digit value satisfies `pred2`,
else one digit when it satisfies `pred1`, else fail.  In the formats this
module uses, a numeric directive is always followed by a non-digit literal
(or the end), so this backtracking-free reading agrees with the regex. -/
def num2 (pred2 pred1 : Nat → Bool) : List Char → Option (Nat × List Char)
  | c1 :: c2 :: rest =>
    if c1.isDigit && c2.isDigit && pred2 (10 * digitVal c1 + digitVal c2) then
      some (10 * digitVal c1 + digitVal c2, rest)
    else if c1.isDigit && pred1 (digitVal c1) then some (digitVal c1, c2 :: rest)
    else none
  | [c1] =>
    if c1.isDigit && pred1 (digitVal c1) then some (digitVal c1, []) else none
  | [] => none

/-- Match `%y` (CPython regex `\d\d`): exactly two digits. -/
def numY2 : List Char → Option (Nat × List Char)
  | c1 :: c2 :: rest =>
    if c1.isDigit && c2.isDigit then
      some (digitVal c1 * 10 + digitVal c2, rest)
    else none
  | _ => none

/-- Match `%Y` (CPython regex `\d\d\d\d`): exactly four digits. -/
def num4 : List Char → Option (Nat × List Char)
  | c1 :: c2 :: c3 :: c4 :: rest =>
    if c1.isDigit && c2.isDigit && c3.isDigit && c4.isDigit then
      some (digitVal c1 * 1000 + digitVal c2 * 100 + digitVal c3 * 10
            + digitVal c4, rest)
    else none
  | _ => none

/-- Match `%f` (CPython regex `[0-9]{1,6}`, greedy): one to six digits,
right-padded with zeros to microseconds. -/
def numF (inp : List Char) : Option (Nat × List Char) :=
  let ds := (inp.takeWhile Char.isDigit).take 6
  if ds.isEmpty then none
  else
    some (ds.foldl (fun a c => 10 * a + digitVal c) 0 * 10 ^ (6 - ds.length),
          inp.drop ds.length)

/-- Walk a `strptime` format against the input, CPython-style: `%Y` is four
digits; `%y` is two digits mapped into 1969–2068; `%m`/`%d` are one or
two digits with the regex's value ranges
(`1[0-2]|0[1-9]|[1-9]` and `3[01]|[12]\d|0[1-9]|[1-9]`); `%H` is
`2[0-3]|[0-1]\d|\d`; `%M` is `[0-5]\d|\d`; `%S` is `6[0-1]|[0-5]\d|\d`;
`%f` is up to six digits; whitespace in the format matches a run of
whitespace (`\s+`); any other format character matches itself; the whole
input must be consumed ("unconverted data remains" otherwise). -/
def matchFmt : List Char → List Char → DTRaw → Option DTRaw
  | [], [], acc => some acc
  | [], _ :: _, _ => none
  | '%' :: rest, inp, acc =>
    match rest with
    | [] => none
    | c :: fr =>
      if c = 'Y' then
        (num4 inp).bind fun r => matchFmt fr r.2 { acc with y := r.1 }
      else if c = 'y' then
        (numY2 inp).bind fun r =>
          matchFmt fr r.2
            { acc with y := if r.1 ≤ 68 then r.1 + 2000 else r.1 + 1900 }
      else if c = 'm' then
        (num2 (fun v => 1 ≤ v && v ≤ 12) (fun v => 1 ≤ v && v ≤ 9) inp).bind
          fun r => matchFmt fr r.2 { acc with mo := r.1 }
      else if c = 'd' then
        (num2 (fun v => 1 ≤ v && v ≤ 31) (fun v => 1 ≤ v && v ≤ 9) inp).bind
          fun r => matchFmt fr r.2 { acc with d := r.1 }
      else if c = 'H' then
        (num2 (fun v => v ≤ 23) (fun _ => true) inp).bind
          fun r => matchFmt fr r.2 { acc with h := r.1 }
      else if c = 'M' then
        (num2 (fun v => v ≤ 59) (fun _ => true) inp).bind
          fun r => matchFmt fr r.2 { acc with mi := r.1 }
      else if c = 'S' then
        (num2 (fun v => v ≤ 61) (fun _ => true) inp).bind
          fun r => matchFmt fr r.2 { acc with s := r.1 }
      else if c = 'f' then
        (numF inp).bind fun r => matchFmt fr r.2 { acc with us := r.1 }
      else if c = '%' then
        match inp with
        | '%' :: ir => matchFmt fr ir acc
        | _ => none
      else none
  | c :: fr, inp, acc =>
    if isPySpace c then
      match inp with
      | i :: ir =>
        if isPySpace i then matchFmt fr (ir.dropWhile isPySpace) acc else none
      | [] => none
    else
      match inp with
      | i :: ir => if i = c then matchFmt fr ir acc else none
      | [] => none

/-- Gregorian leap year, as `datetime` uses. -/
def isLeap (y : Nat) : Bool := (y % 4 = 0 && y % 100 ≠ 0) || y % 400 = 0

/-- Length of a month, as enforced by the `datetime.datetime` constructor. -/
def daysInMonth (y m : Nat) : Nat :=
  if m = 2 then (if isLeap y then 29 else 28)
  else if m = 4 || m = 6 || m = 9 || m = 11 then 30
  else 31

/-- `datetime.datetime.strptime(value, fmt)`: match the format, then build
the datetime; construction enforces `MINYEAR <= year`, a valid day for the
month, and `second <= 59` (the regex alone would admit leap seconds 60/61,
which the constructor rejects).  Failure (a `ValueError` in Python) is
`none`. -/
def strptime (fmt : String) (value : PyStr) : Option (Date × Time) :=
  (matchFmt fmt.data value {}).bind fun r =>
    if 1 ≤ r.y && r.d ≤ daysInMonth r.y r.mo && r.s ≤ 59 then
      some (⟨r.y, r.mo, r.d⟩, ⟨r.h, r.mi, r.s, r.us⟩)
    else none

/-- `DateTimeEnvVariable._DEFAULT_DATE_FORMATS`. -/
def defaultDateFormats : List String := ["%Y-%m-%d"]

/-- `DateTimeEnvVariable._DEFAULT_TIME_FORMATS`. -/
def defaultTimeFormats : List String := ["%H:%M:%S", "%H:%M:%S.%f"]

/-- `DateTimeEnvVariable._get_default_dt_date`: the date component of
`strptime("1:2:3.456789", "%H:%M:%S.%f")` — the sentinel date a time-only
parse receives.  The fallback value `⟨0, 0, 0⟩` (not a constructible
Python date) is never taken; the parse succeeds and yields 1900-01-01. -/
def defaultDtDate : Date :=
  ((strptime "%H:%M:%S.%f" (ofStr "1:2:3.456789")).map Prod.fst).getD ⟨0, 0, 0⟩

/-- `DateTimeEnvVariable._get_default_dt_time`: the time component of
`strptime("2000-3-1", "%Y-%m-%d")` — the sentinel time a date-only parse
receives.  The fallback value is never taken; the parse succeeds and
yields midnight. -/
def defaultDtTime : Time :=
  ((strptime "%Y-%m-%d" (ofStr "2000-3-1")).map Prod.snd).getD ⟨99, 99, 99, 99⟩

/-- The result of `DateTimeEnvVariable.convert`: a full
`datetime.datetime`, a bare `datetime.date`, or a bare `datetime.time`. -/
inductive DTResult where
  | full (date : Date) (time : Time)
  | dateOnly (date : Date)
  | timeOnly (time : Time)
deriving DecidableEq, Repr

/-- `DateTimeEnvVariable._associate_datetime_with_type`: a parse whose date
equals the sentinel date is a bare time; else one whose time equals the
sentinel time is a bare date; else the full timestamp. -/
def associate (r : Date × Time) : DTResult :=
  if r.1 = defaultDtDate then .timeOnly r.2
  else if r.2 = defaultDtTime then .dateOnly r.1
  else .full r.1 r.2

/-- `DateTimeEnvVariable._get_formats_iterator`: the configured explicit
format alone when set (`none` embeds the `Ellipsis` default), else the
time formats, then the date formats, then every "date time" combination,
date-major and time-minor. -/
def formatsIterator (datetimeFormat : Option String) : List String :=
  match datetimeFormat with
  | some f => [f]
  | none =>
    defaultTimeFormats ++ defaultDateFormats ++
      defaultDateFormats.flatMap (fun dfmt =>
        defaultTimeFormats.map (fun tfmt => dfmt ++ " " ++ tfmt))

/-- The format loop of `DateTimeEnvVariable.convert`: try each format,
suppressing parse failures; the first success is classified by
`associate`; when every format fails, `ValueError` naming the raw value. -/
def convertAux : List String → PyStr → Except PyError DTResult
  | [], value => .error (.valueErr (.toDatetime value))
  | fmt :: fmts, value =>
    match strptime fmt value with
    | some r => .ok (associate r)
    | none => convertAux fmts value

/-- `DateTimeEnvVariable.convert`. -/
def convert (datetimeFormat : Option String) (value : PyStr) :
    Except PyError DTResult :=
  convertAux (formatsIterator datetimeFormat) value

end DateTimeVar

namespace Contract

/-- The three possible outcomes of reading a converter's `value`: a
converted value, the default returned verbatim, or a conversion error.
The default's type `α` is unrelated to the converter's target type `β`
because the default undergoes no type check or conversion. -/
inductive Outcome (α β : Type) where
  | value (v : β)
  | defaultValue (d : α)
  | convError (e : PyError)
deriving DecidableEq, Repr

/-- Modelled from the spec: the `value` accessor of
`gnvext.converters.base.EnvVariable`, which the converter module imports
but whose source file is not part of the repository snapshot under
verification.  Per spec sections 3 and 4.1: the environment fetch yields
an optional raw string; if the fetched raw value is absent, `default` is
returned unchanged with no conversion invoked; if it is present, the
active variant's `convert` is invoked on it and its outcome — success or
error — is propagated unsuppressed. -/
def valueAccessor {α β : Type} (rawValue : Option PyStr) (dflt : α)
    (conv : PyStr → Except PyError β) : Outcome α β :=
  match rawValue with
  | none => .defaultValue dflt
  | some raw =>
    match conv raw with
    | .ok v => .value v
    | .error e => .convError e

end Contract

namespace Collection

/-- The mapping-shape condition as the specification states it: the parsed
tuple has even length and, iterating pairwise, every key ends with a colon
while the paired value does not.  (The even-length requirement is folded
into the recursion: a trailing unpaired element refutes the condition.) -/
def dictShaped : List PyStr → Bool
  | [] => true
  | [_] => false
  | k :: v :: rest => endsWith1 k ':' && !endsWith1 v ':' && dictShaped rest

/-- Helper for `specMapping`, threading the mapping built so far. -/
def specMappingGo : List PyStr → List (PyStr × PyStr) → List (PyStr × PyStr)
  | [], acc => acc
  | [_], acc => acc
  | k :: v :: rest, acc => specMappingGo rest (dictInsert acc (cleanKey k) v)

/-- The mapping the specification describes for a dict-shaped parsed
tuple: each key, with its trailing colon removed and wrapping quotes
trimmed, mapped to its paired value. -/
def specMapping (coll : List PyStr) : List (PyStr × PyStr) :=
  specMappingGo coll []

/-- The bracket-family fallback the specification describes for the
no-explicit-target path once mapping construction has failed: identify a
family from the first and last characters of the stripped raw value,
default to list when that fails or names a non-collection type, downgrade
dict to set, and construct that family from the parsed tuple. -/
def bracketFallback (value : PyStr) (coll : List PyStr) : PyColl :=
  let asStr := pyStrip value
  let dt : PyKind :=
    match probeTwoChar asStr with
    | .ok .listT => .list
    | .ok .tupleT => .tuple
    | .ok .dictT => .dict
    | .ok .otherLit => .list
    | .error _ => .list
  let dt := if dt = PyKind.dict then PyKind.set else dt
  constructKind dt coll

/-- The token-normalization rule exactly as the claim words it: after
stripping, escaping and dropping one trailing comma, a token of length
exceeding 2 that starts with an escaped-quote marker and ends with an
escaped-quote marker (each marker being an escaped single or an escaped
double quote, not necessarily the same) has those two markers stripped
instead of being re-wrapped; otherwise the escaped token is wrapped in a
fresh pair of double quotes. -/
def specWrapClaimed (value : PyStr) : PyStr :=
  let v1 := escQuotes (pyStrip value)
  let v2 := if endsWith1 v1 ',' then v1.dropLast else v1
  if (startsWith2 v2 '\\' '\x22' || startsWith2 v2 '\\' '\x27')
     && (endsWith2 v2 '\\' '\x22' || endsWith2 v2 '\\' '\x27')
     && v2.length > 2
  then (v2.drop 2).take (v2.length - 4)
  else '\x22' :: (v2 ++ ['\x22'])

/-- The token-normalization rule as amended: the marker-stripping case
requires the leading and trailing markers to be the SAME kind of
escaped quote and length exceeding 2 (equivalent to the code's
`len != 2`, since matching markers force length 2 or at least 4), and the
token — stripped or not — is always wrapped in double quotes. -/
def specWrapAmended (value : PyStr) : PyStr :=
  let v1 := escQuotes (pyStrip value)
  let v2 := if endsWith1 v1 ',' then v1.dropLast else v1
  let v3 :=
    if ((startsWith2 v2 '\\' '\x22' && endsWith2 v2 '\\' '\x22')
        || (startsWith2 v2 '\\' '\x27' && endsWith2 v2 '\\' '\x27'))
       && v2.length > 2
    then (v2.drop 2).take (v2.length - 4)
    else v2
  '\x22' :: (v3 ++ ['\x22'])

end Collection

namespace DateTimeVar

/-- The candidate-format order exactly as the claim words it: time-only
with fractional seconds first, then time-only without, then date-only,
then the date+time combinations (with the claim's time-format order). -/
def claimedDefaultFormats : List String :=
  ["%H:%M:%S.%f", "%H:%M:%S", "%Y-%m-%d",
   "%Y-%m-%d %H:%M:%S.%f", "%Y-%m-%d %H:%M:%S"]

/-- The first format in the list that `strptime` parses the value with,
together with the parse result. -/
def firstSuccess (fmts : List String) (value : PyStr) : Option (Date × Time) :=
  fmts.findSome? (fun fmt => strptime fmt value)

end DateTimeVar

namespace Collection

lemma tryToDictAux_of_shaped :
    ∀ (l : List PyStr) (acc : List (PyStr × PyStr)) (coll : List PyStr),
      dictShaped l = true → tryToDictAux coll l acc = .ok (specMappingGo l acc)
  | [], _, _, _ => rfl
  | [_], _, _, h => by simp [dictShaped] at h
  | k :: v :: rest, acc, coll, h => by
    simp only [dictShaped] at h
    rw [Bool.and_eq_true, Bool.and_eq_true, Bool.not_eq_true'] at h
    obtain ⟨⟨hk, hv⟩, hrest⟩ := h
    simp only [tryToDictAux, specMappingGo, hk, hv, Bool.not_true,
      Bool.false_or, if_neg, Bool.false_eq_true, not_false_eq_true]
    exact tryToDictAux_of_shaped rest (dictInsert acc (cleanKey k) v) coll hrest

lemma tryToDictAux_of_unshaped :
    ∀ (l : List PyStr) (acc : List (PyStr × PyStr)) (coll : List PyStr),
      dictShaped l = false →
      tryToDictAux coll l acc = .error (.valueErr (.toDict coll))
  | [], _, _, h => by simp [dictShaped] at h
  | [_], _, _, _ => rfl
  | k :: v :: rest, acc, coll, h => by
    by_cases hc : (!endsWith1 k ':' || endsWith1 v ':') = true
    · simp [tryToDictAux, hc]
    · rw [Bool.or_eq_true, not_or, Bool.not_eq_true, Bool.not_eq_true,
        Bool.not_eq_false'] at hc
      obtain ⟨hk, hv⟩ := hc
      simp only [dictShaped, hk, hv, Bool.not_false, Bool.true_and] at h
      simp only [tryToDictAux, hk, hv, Bool.not_true, Bool.false_or,
        Bool.false_eq_true, not_false_eq_true, if_neg]
      exact tryToDictAux_of_unshaped rest (dictInsert acc (cleanKey k) v) coll h

lemma dictShaped_even : ∀ l : List PyStr, dictShaped l = true → l.length % 2 = 0
  | [], _ => rfl
  | [_], h => by simp [dictShaped] at h
  | _ :: _ :: rest, h => by
    simp only [dictShaped] at h
    rw [Bool.and_eq_true] at h
    have := dictShaped_even rest h.2
    simp only [List.length_cons]
    omega

lemma tryToDict_of_shaped (coll : List PyStr) (h : dictShaped coll = true) :
    tryToDict coll = .ok (specMapping coll) := by
  unfold tryToDict
  rw [if_neg (not_ne_iff.mpr (dictShaped_even coll h))]
  exact tryToDictAux_of_shaped coll [] coll h

lemma tryToDict_of_unshaped (coll : List PyStr) (h : dictShaped coll = false) :
    tryToDict coll = .error (.valueErr (.toDict coll)) := by
  unfold tryToDict
  by_cases hlen : coll.length % 2 ≠ 0
  · rw [if_pos hlen]
  · rw [if_neg hlen]
    exact tryToDictAux_of_unshaped coll [] coll h

lemma marker_length (w : PyStr) (q : Char) (hq : q ≠ '\\')
    (h1 : startsWith2 w '\\' q = true) (h2 : endsWith2 w '\\' q = true) :
    w.length = 2 ∨ 4 ≤ w.length := by
  match w with
  | [] => simp [startsWith2] at h1
  | [_] => simp [startsWith2] at h1
  | [_, _] => exact Or.inl rfl
  | [a, b, c] =>
    exfalso
    simp only [startsWith2, Bool.and_eq_true, decide_eq_true_eq] at h1
    simp only [endsWith2, List.reverse_cons, List.reverse_nil,
      List.nil_append, List.cons_append, Bool.and_eq_true,
      decide_eq_true_eq] at h2
    exact hq (h1.2 ▸ h2.1)
  | _ :: _ :: _ :: _ :: _ =>
    refine Or.inr ?_
    simp only [List.length_cons]
    omega

lemma wrap_eq_amended (value : PyStr) :
    wrapWithQuotes value = specWrapAmended value := by
  simp only [wrapWithQuotes, specWrapAmended]
  generalize (if endsWith1 (escQuotes (pyStrip value)) ','
      then (escQuotes (pyStrip value)).dropLast
      else escQuotes (pyStrip value)) = w
  by_cases hm : ((startsWith2 w '\\' '\x22' && endsWith2 w '\\' '\x22')
      || (startsWith2 w '\\' '\x27' && endsWith2 w '\\' '\x27')) = true
  · have hlen : w.length = 2 ∨ 4 ≤ w.length := by
      rw [Bool.or_eq_true, Bool.and_eq_true, Bool.and_eq_true] at hm
      rcases hm with h | h
      · exact marker_length w '\x22' (by decide) h.1 h.2
      · exact marker_length w '\x27' (by decide) h.1 h.2
    rcases hlen with h2 | h4
    · simp [hm, h2]
    · simp [hm, show w.length ≠ 2 by omega, show 2 < w.length by omega]
  · simp only [Bool.not_eq_true] at hm
    simp [hm]

end Collection

namespace DateTimeVar

lemma convertAux_eq_firstSuccess (fmts : List String) (value : PyStr) :
    convertAux fmts value =
      (match firstSuccess fmts value with
       | some r => .ok (associate r)
       | none => .error (.valueErr (.toDatetime value))) := by
  induction fmts with
  | nil => rfl
  | cons fmt rest ih =>
    simp only [convertAux, firstSuccess, List.findSome?_cons]
    cases strptime fmt value with
    | some r => rfl
    | none => simpa [firstSuccess] using ih

end DateTimeVar

end Gnvext

namespace Gnvext

/-- C1: For every converter variant, if the fetched raw value is absent,
reading `value` returns the configured default unchanged regardless of its
shape and the conversion function is never invoked (the outcome does not
depend on it); if the raw value is present, `convert` is always invoked
and its outcome — success or error — is propagated unsuppressed. -/
theorem claim_C1_value_default_or_convert {α β : Type} (dflt : α)
    (conv conv2 : PyStr → Except PyError β) (raw : PyStr) :
    Contract.valueAccessor none dflt conv = .defaultValue dflt
    ∧ Contract.valueAccessor none dflt conv =
        Contract.valueAccessor none dflt conv2
    ∧ Contract.valueAccessor (some raw) dflt conv =
        (match conv raw with
         | .ok v => .value v
         | .error e => .convError e) :=
  ⟨rfl, rfl, rfl⟩

/-- C2 counterexample: for the raw string whose characters read
`\x7b"a": 1, "b": 2\x7d` with an explicit tuple target, the code returns
the tuple built from the parsed 4-tuple of token strings; it does NOT
attempt mapping construction first and does not return the mapping
`a ↦ 1, b ↦ 2` the claim predicts. -/
theorem claim_C2_counterexample :
    Collection.convert (some .tuple) (ofStr "\x7b\x22a\x22: 1, \x22b\x22: 2\x7d") =
      .ok (.tuple [ofStr "\x22a\x22:", ofStr "1", ofStr "\x22b\x22:", ofStr "2"])
    ∧ Collection.convert (some .tuple) (ofStr "\x7b\x22a\x22: 1, \x22b\x22: 2\x7d") ≠
      .ok (.dict [(ofStr "a", ofStr "1"), (ofStr "b", ofStr "2")]) := by
  decide

/-- C2 as amended: with an explicit non-mapping target container kind
configured, mapping construction is not attempted at all — the configured
container is constructed directly from the parsed tuple (and this
construction cannot fail), even when the raw string is mapping-shaped. -/
theorem claim_C2_amended (raw : PyStr) (k : PyKind) (coll : List PyStr)
    (h : k ≠ .dict) :
    Collection.toExpectedType raw k coll = .ok (Collection.constructKind k coll)
    ∧ Collection.convert (some .list) (ofStr "\x7b\x22a\x22: 1, \x22b\x22: 2\x7d") =
      .ok (.list [ofStr "\x22a\x22:", ofStr "1", ofStr "\x22b\x22:", ofStr "2"]) := by
  refine ⟨?_, by decide⟩
  cases k with
  | dict => exact absurd rfl h
  | list => rfl
  | tuple => rfl
  | set => rfl

/-- Witness for C2 (amended): the tuple target on a concrete parsed tuple
constructs the tuple directly. -/
theorem claim_C2_amended_witness :
    Collection.toExpectedType (ofStr "x: 1") PyKind.tuple
      [ofStr "x:", ofStr "1"] =
      .ok (Collection.constructKind PyKind.tuple [ofStr "x:", ofStr "1"]) :=
  (claim_C2_amended (ofStr "x: 1") PyKind.tuple [ofStr "x:", ofStr "1"]
    (by decide)).1

/-- C3 counterexample: the candidate-format list the code tries is not the
list the claim states — the code tries the time-only format WITHOUT
fractional seconds before the one with fractional seconds (and likewise in
the date+time combinations). -/
theorem claim_C3_counterexample :
    DateTimeVar.formatsIterator none ≠ DateTimeVar.claimedDefaultFormats := by
  decide

/-- C3 as amended: with no explicit format configured the candidates are,
in order: time-only without fractional seconds, time-only with fractional
seconds, date-only, then every date+time combination joined by a single
space iterated date-major time-minor (in the same time order); the first
candidate that parses is accepted and classified, and if every candidate
fails a conversion error naming the raw value is raised. -/
theorem claim_C3_amended (value : PyStr) :
    DateTimeVar.formatsIterator none =
      ["%H:%M:%S", "%H:%M:%S.%f", "%Y-%m-%d",
       "%Y-%m-%d %H:%M:%S", "%Y-%m-%d %H:%M:%S.%f"]
    ∧ DateTimeVar.convert none value =
        (match DateTimeVar.firstSuccess (DateTimeVar.formatsIterator none) value with
         | some r => .ok (DateTimeVar.associate r)
         | none => .error (.valueErr (.toDatetime value))) :=
  ⟨rfl, DateTimeVar.convertAux_eq_firstSuccess _ _⟩

/-- C4 counterexample: for the empty raw string the assembled stage-3 text
is `"(,)"`, and the rejection escapes as the evaluator's `SyntaxError` —
not as the library's conversion-failure kind (`ValueError`). -/
theorem claim_C4_counterexample :
    Collection.convert none (ofStr "") = .error .synErr
    ∧ PyError.isConvFailure .synErr = false := by decide

/-- C4 as amended: conversion failures raised by the collection converter
itself surface as the single `ValueError` kind carrying the offending raw
input, but a stage-3 text that does not conform to the bounded
string-literal-tuple shape makes the uncaught literal evaluator's own
error escape instead: with no explicit target every error of `convert` is
an error of the literal-evaluation stage, with an explicit mapping target
the only other possible error is the conversion failure naming the raw
value, and concretely the empty string and a token ending in a backslash
raise the evaluator's `SyntaxError`. -/
theorem claim_C4_amended (raw : PyStr) (e : PyError) :
    (Collection.convert none raw = .error e →
       litEval (Collection.parse raw) = .error e)
    ∧ (Collection.convert (some .dict) raw = .error e →
       e = .valueErr (.toExpected raw)
       ∨ litEval (Collection.parse raw) = .error e)
    ∧ Collection.convert none (ofStr "a\\") = .error .synErr := by
  refine ⟨?_, ?_, by decide⟩
  · intro h
    unfold Collection.convert at h
    cases hl : litEval (Collection.parse raw) with
    | ok coll => rw [hl] at h; simp at h
    | error e' => rw [hl] at h; simp at h; rw [h]
  · intro h
    unfold Collection.convert at h
    cases hl : litEval (Collection.parse raw) with
    | ok coll =>
      rw [hl] at h
      simp only [Collection.toExpectedType] at h
      cases ht : Collection.tryToDict coll with
      | ok m => rw [ht] at h; simp at h
      | error e' => rw [ht] at h; simp at h; exact Or.inl h.symm
    | error e' => rw [hl] at h; simp at h; exact Or.inr (by rw [h])

/-- Witness for C4 (amended): at the empty raw string the error produced
by `convert` is the literal-evaluation error. -/
theorem claim_C4_amended_witness :
    litEval (Collection.parse (ofStr "")) = .error .synErr :=
  (claim_C4_amended (ofStr "") .synErr).1 (by decide)

/-- C5: the sentinel date filled into time-only parses is 1900-01-01 and
the sentinel time filled into date-only parses is midnight; after a
successful parse, a result whose date equals the sentinel date is returned
as a bare time, else one whose time equals the sentinel time is returned
as a bare date, else the full timestamp is returned unchanged; so
"13:05:07" yields a bare time, "2024-03-01" a bare date, and
"2024-03-01 13:05:07" the full timestamp. -/
theorem claim_C5_sentinel_disambiguation (d : DateTimeVar.Date)
    (t : DateTimeVar.Time) :
    DateTimeVar.defaultDtDate = ⟨1900, 1, 1⟩
    ∧ DateTimeVar.defaultDtTime = ⟨0, 0, 0, 0⟩
    ∧ (d = DateTimeVar.defaultDtDate →
         DateTimeVar.associate (d, t) = .timeOnly t)
    ∧ (d ≠ DateTimeVar.defaultDtDate → t = DateTimeVar.defaultDtTime →
         DateTimeVar.associate (d, t) = .dateOnly d)
    ∧ (d ≠ DateTimeVar.defaultDtDate → t ≠ DateTimeVar.defaultDtTime →
         DateTimeVar.associate (d, t) = .full d t)
    ∧ DateTimeVar.convert none (ofStr "13:05:07") =
        .ok (.timeOnly ⟨13, 5, 7, 0⟩)
    ∧ DateTimeVar.convert none (ofStr "2024-03-01") =
        .ok (.dateOnly ⟨2024, 3, 1⟩)
    ∧ DateTimeVar.convert none (ofStr "2024-03-01 13:05:07") =
        .ok (.full ⟨2024, 3, 1⟩ ⟨13, 5, 7, 0⟩) := by
  refine ⟨by decide, by decide, ?_, ?_, ?_, by decide, by decide, by decide⟩
  · intro hd
    simp [DateTimeVar.associate, hd]
  · intro hd ht
    simp [DateTimeVar.associate, hd, ht]
  · intro hd ht
    simp [DateTimeVar.associate, hd, ht]

/-- Witness for C5: the sentinel-date rule applied at a concrete parse
result. -/
theorem claim_C5_witness :
    DateTimeVar.associate (⟨1900, 1, 1⟩, ⟨13, 5, 7, 0⟩) =
      .timeOnly ⟨13, 5, 7, 0⟩ :=
  (claim_C5_sentinel_disambiguation ⟨1900, 1, 1⟩ ⟨13, 5, 7, 0⟩).2.2.1
    (by decide)

end Gnvext

namespace Gnvext

/-- C6: with no explicit target kind, mapping construction succeeds
exactly when the parsed tuple is dict-shaped (even length; pairwise, each
key ends with a colon and its value does not), in which case the result is
the mapping from cleaned keys to paired values; on any violation the
mapping attempt is abandoned without error and the result falls through to
the bracket-family inference; concretely the mapping-shaped raw string
yields the mapping a ↦ 1, b ↦ 2. -/
theorem claim_C6_mapping_construction (raw : PyStr) (coll : List PyStr) :
    (Collection.dictShaped coll = true →
       Collection.tryToDict coll = .ok (Collection.specMapping coll)
       ∧ Collection.toDeterminedType raw coll =
           .dict (Collection.specMapping coll)
       ∧ coll.length % 2 = 0)
    ∧ (Collection.dictShaped coll = false →
       Collection.tryToDict coll = .error (.valueErr (.toDict coll))
       ∧ Collection.toDeterminedType raw coll =
           Collection.bracketFallback raw coll)
    ∧ Collection.convert none (ofStr "\x7b\x22a\x22: 1, \x22b\x22: 2\x7d") =
        .ok (.dict [(ofStr "a", ofStr "1"), (ofStr "b", ofStr "2")]) := by
  refine ⟨fun h => ?_, fun h => ?_, by decide⟩
  · have ht := Collection.tryToDict_of_shaped coll h
    exact ⟨ht, by simp [Collection.toDeterminedType, ht],
      Collection.dictShaped_even coll h⟩
  · have ht := Collection.tryToDict_of_unshaped coll h
    refine ⟨ht, ?_⟩
    simp only [Collection.toDeterminedType, Collection.bracketFallback, ht]

/-- Witness for C6: the mapping attempt on a concrete dict-shaped tuple. -/
theorem claim_C6_witness :
    Collection.tryToDict [ofStr "a:", ofStr "1"] =
      .ok (Collection.specMapping [ofStr "a:", ofStr "1"]) :=
  ((claim_C6_mapping_construction (ofStr "a: 1") [ofStr "a:", ofStr "1"]).1
    (by decide)).1

/-- C7: with no explicit target kind, once mapping construction has
failed, a stripped raw value whose first and last characters form the
dict/set bracket family yields a SET built from the parsed tuple (never a
dict); when the two-character probe errors or identifies a non-collection
literal, the family defaults to list. -/
theorem claim_C7_bracket_family (raw : PyStr) (coll : List PyStr)
    (hfail : ∃ e, Collection.tryToDict coll = Except.error e) :
    (Collection.probeTwoChar (pyStrip raw) = .ok .dictT →
       Collection.toDeterminedType raw coll = .set (Collection.setOfList coll))
    ∧ (Collection.probeTwoChar (pyStrip raw) = .error () →
       Collection.toDeterminedType raw coll = .list coll)
    ∧ (Collection.probeTwoChar (pyStrip raw) = .ok .otherLit →
       Collection.toDeterminedType raw coll = .list coll)
    ∧ Collection.convert none (ofStr " \x7b\x22a\x22, \x27b\x27\x7d") =
        .ok (.set [ofStr "a", ofStr "b"])
    ∧ Collection.convert none (ofStr "val1, val2, val3") =
        .ok (.list [ofStr "val1", ofStr "val2", ofStr "val3"]) := by
  obtain ⟨e, he⟩ := hfail
  refine ⟨fun hp => ?_, fun hp => ?_, fun hp => ?_, by decide, by decide⟩
  all_goals
    simp [Collection.toDeterminedType, he, hp, Collection.constructKind]

/-- Witness for C7: a failed mapping attempt with brace-delimited raw
input produces a set. -/
theorem claim_C7_witness :
    Collection.toDeterminedType (ofStr "\x7bx\x7d") [ofStr "x"] =
      .set (Collection.setOfList [ofStr "x"]) :=
  (claim_C7_bracket_family (ofStr "\x7bx\x7d") [ofStr "x"]
    ⟨.valueErr (.toDict [ofStr "x"]), by decide⟩).1 (by decide)

/-- C8 counterexample: on the token `"x\x27` (escaped form `\\"x\\\x27`),
which starts with one kind of escaped-quote marker and ends with the
other, the claimed rule strips the markers but the code — which requires
the SAME marker kind at both ends — wraps the escaped token unchanged. -/
theorem claim_C8_counterexample :
    Collection.wrapWithQuotes (ofStr "\x22x\x27") =
      ofStr "\x22\\\x22x\\\x27\x22"
    ∧ Collection.specWrapClaimed (ofStr "\x22x\x27") ≠
      Collection.wrapWithQuotes (ofStr "\x22x\x27") := by decide

/-- C8 as amended: token normalization strips whitespace, escapes quotes,
drops exactly one trailing comma, then — when the escaped token's length
exceeds 2 and it starts and ends with the SAME kind of escaped-quote
marker (both escaped double quotes, or both escaped single quotes) —
strips those two markers; in every case the resulting token is wrapped in
a fresh pair of double quotes.  Concretely the token `\x27a\x27` becomes
`"a"` and the token `"\x27",` becomes `"\\\x27"`. -/
theorem claim_C8_amended (value : PyStr) :
    Collection.wrapWithQuotes value = Collection.specWrapAmended value
    ∧ Collection.wrapWithQuotes (ofStr "\x27a\x27") = ofStr "\x22a\x22"
    ∧ Collection.wrapWithQuotes (ofStr "\x22\x27\x22,") =
        ofStr "\x22\\\x27\x22" :=
  ⟨Collection.wrap_eq_amended value, by decide, by decide⟩

/-- C9: boolean conversion strips leading/trailing whitespace (internal
whitespace preserved), returns true on membership in the configured truthy
set, else false on membership in the falsy set, else raises the conversion
error naming the raw value; membership in the truthy set wins even when
the string is in both sets, and no case normalization is applied. -/
theorem claim_C9_boolean_matcher (truthy falsy : List PyStr) (value : PyStr) :
    (pyStrip value ∈ truthy →
       BooleanVar.convert truthy falsy value = .ok true)
    ∧ (pyStrip value ∉ truthy → pyStrip value ∈ falsy →
       BooleanVar.convert truthy falsy value = .ok false)
    ∧ (pyStrip value ∉ truthy → pyStrip value ∉ falsy →
       BooleanVar.convert truthy falsy value =
         .error (.valueErr (.toBool value)))
    ∧ pyStrip (ofStr "  a b ") = ofStr "a b" := by
  refine ⟨fun h => ?_, fun h1 h2 => ?_, fun h1 h2 => ?_, by decide⟩
  · simp [BooleanVar.convert, h]
  · simp [BooleanVar.convert, h1, h2]
  · simp [BooleanVar.convert, h1, h2]

/-- Witness for C9: the default sets classify a padded truthy token. -/
theorem claim_C9_witness :
    BooleanVar.convert BooleanVar.truthyValues BooleanVar.falsyValues
      (ofStr "  t") = .ok true :=
  (claim_C9_boolean_matcher BooleanVar.truthyValues BooleanVar.falsyValues
    (ofStr "  t")).1 (by decide)

/-- C10 counterexample: the full timestamp "1900-01-01 00:00:00" has time
component exactly midnight, yet it is returned as a bare TIME (the
sentinel-date rule fires first), not as the bare date the claim's
midnight rule predicts. -/
theorem claim_C10_counterexample :
    DateTimeVar.convert none (ofStr "1900-01-01 00:00:00") =
      .ok (.timeOnly ⟨0, 0, 0, 0⟩)
    ∧ DateTimeVar.convert none (ofStr "1900-01-01 00:00:00") ≠
      .ok (.dateOnly ⟨1900, 1, 1⟩) := by decide

/-- C10 as amended: a parse whose date component is the sentinel
1900-01-01 is returned as a bare time (this rule takes precedence); a
parse whose date is NOT 1900-01-01 and whose time is exactly midnight is
returned as a bare date with the time discarded; so "2024-03-01 00:00:00"
yields the bare date 2024-03-01 and "1900-01-01 13:05:07" yields the bare
time 13:05:07. -/
theorem claim_C10_amended (d : DateTimeVar.Date) (t : DateTimeVar.Time) :
    (d = ⟨1900, 1, 1⟩ → DateTimeVar.associate (d, t) = .timeOnly t)
    ∧ (d ≠ ⟨1900, 1, 1⟩ → t = ⟨0, 0, 0, 0⟩ →
         DateTimeVar.associate (d, t) = .dateOnly d)
    ∧ DateTimeVar.convert none (ofStr "2024-03-01 00:00:00") =
        .ok (.dateOnly ⟨2024, 3, 1⟩)
    ∧ DateTimeVar.convert none (ofStr "1900-01-01 13:05:07") =
        .ok (.timeOnly ⟨13, 5, 7, 0⟩) := by
  have hd : DateTimeVar.defaultDtDate = ⟨1900, 1, 1⟩ := by decide
  have ht : DateTimeVar.defaultDtTime = ⟨0, 0, 0, 0⟩ := by decide
  refine ⟨fun h => ?_, fun h1 h2 => ?_, by decide, by decide⟩
  · simp [DateTimeVar.associate, hd, h]
  · simp [DateTimeVar.associate, hd, ht, h1, h2]

/-- Witness for C10 (amended): the midnight rule at a concrete
non-sentinel date. -/
theorem claim_C10_amended_witness :
    DateTimeVar.associate (⟨2024, 3, 1⟩, ⟨0, 0, 0, 0⟩) =
      .dateOnly ⟨2024, 3, 1⟩ :=
  (claim_C10_amended ⟨2024, 3, 1⟩ ⟨0, 0, 0, 0⟩).2.1 (by decide) (by decide)

end Gnvext
